import Mathlib

/-!
Shallow embedding of the rio-mbtiles tile-pyramid export pipeline
(`src/mbtiles/__init__.py` and `src/mbtiles/scripts/cli.py`).

Python dictionaries are modelled as ordered association lists; the aliasing
between the caller's `reproject_args` dictionary and the local copy made in
`reproject_tile` is modelled by an explicit heap of dictionaries (`PyState`)
indexed by allocation order, so that frame properties are meaningful.
Image encodings produced through rasterio's `MemoryFile` are modelled
symbolically: an encoded blob records the profile and pixel data it was
produced from, so distinct inputs give distinct blobs.  The external
resampling engine (`rasterio.warp.reproject`) is a black box whose output is
the symbolic blob `Blob.warped ...`; invoking it is observable.
-/

/-- A tile coordinate as in `mercantile.Tile`: column `x`, row `y` (north
origin), zoom `z`. -/
structure Tile where
  x : Nat
  y : Nat
  z : Nat
deriving DecidableEq, Repr

/-- Values stored in a Python dict in this code base: `None`, numbers,
strings, and the affine transform computed from a tile's mercator bounds
(opaque: no claim inspects its numeric contents, so it is represented by the
tile it was computed from, exactly as `transform_from_bounds` of the tile's
`get_mercator_xy_bounds`). -/
inductive PVal where
  | noneV : PVal
  | num : Int → PVal
  | str : String → PVal
  | affine : Tile → PVal
deriving DecidableEq, Repr

/-- A Python dict with string keys, as an insertion-ordered association
list. -/
abbrev Dict := List (String × PVal)

/-- `d.get(k)` as an `Option`. -/
def dget (d : Dict) (k : String) : Option PVal :=
  (d.find? (fun kv => kv.1 == k)).map (fun kv => kv.2)

/-- `d[k] = v`: replace in place when the key exists, append otherwise. -/
def dset (d : Dict) (k : String) (v : PVal) : Dict :=
  if d.any (fun kv => kv.1 == k) then
    d.map (fun kv => if kv.1 == k then (k, v) else kv)
  else
    d ++ [(k, v)]

/-- `d.pop(k, None)`: the value (or `None`) and the dict without the key. -/
def dpop (d : Dict) (k : String) : PVal × Dict :=
  ((dget d k).getD PVal.noneV, d.filter (fun kv => kv.1 != k))

/-- Read a numeric dict value with a default, as in `profile.get("width", 256)`. -/
def dnum (d : Dict) (k : String) (dflt : Int) : Int :=
  match dget d k with
  | some (PVal.num n) => n
  | _ => dflt

/-- A raster source dataset (the `rasterio.DatasetReader` facets used by the
code): band count, optional nodata value, and per-band sample data. -/
structure SrcDataset where
  count : Nat
  nodata : Option Int
  bands : List (List Int)
deriving DecidableEq, Repr

/-- `src.indexes`: the 1-based band indexes. -/
def SrcDataset.indexes (src : SrcDataset) : List Nat :=
  List.range' 1 src.count

/-- `src.read(i)`: the samples of band `i` (1-based). -/
def SrcDataset.read (src : SrcDataset) (i : Nat) : List Int :=
  (src.bands.drop (i - 1)).headD []

/-- `src_has_data(src)` from `src/mbtiles/__init__.py` lines 110-119: pick
bands (1,2,3), or all bands when fewer than 3; a band "has data" when some
sample is nonzero (`np.any(src.read(i))`) if `src.nodata is None`, else when
some sample differs from nodata; the source has data when any chosen band
does. -/
def src_has_data (src : SrcDataset) : Bool :=
  let src_indexes := if src.indexes.length < 3 then src.indexes else [1, 2, 3]
  let has_bands_data :=
    match src.nodata with
    | none => src_indexes.map (fun i => (src.read i).any (fun v => v != 0))
    | some nd => src_indexes.map (fun i => (src.read i).any (fun v => v != nd))
  has_bands_data.any id

/-- An image blob: either raw bytes (`bytearray()` / `bytes()` give
`Blob.raw []`), an image encoded from an in-memory dataset created with the
given profile and holding the given band data, or the output of the external
resampling engine for the given source, profile, nodata overrides and
resampling method. -/
inductive Blob where
  | raw : List Int → Blob
  | image : Dict → List (List Int) → Blob
  | warped : SrcDataset → Tile → Dict → PVal → PVal → String → Blob
deriving DecidableEq, Repr

/-- `empty_tile(profile)` from `src/mbtiles/__init__.py` lines 125-136:
read width/height with default 256, build a zero array, mutate the profile
(`nodata = 0`, write back width and height), open a `MemoryFile` with the
profile and write the zero array to every band, return the encoded bytes.
The result pairs the encoded blob with the mutated profile (the Python
function mutates the dict it is given). -/
def empty_tile (profile : Dict) : Blob × Dict :=
  let width := dnum profile "width" 256
  let height := dnum profile "height" 256
  let tile_data := List.replicate (width * height).toNat 0
  let p1 := dset profile "nodata" (PVal.num 0)
  let p2 := dset p1 "width" (PVal.num width)
  let p3 := dset p2 "height" (PVal.num height)
  let cnt := (dnum p3 "count" 0).toNat
  (Blob.image p3 ((List.range cnt).map (fun _ => tile_data)), p3)

/-- The mutable interpreter state: the heap of allocated dicts (address =
allocation index) and the module-global `EMPTY_TILE` slot
(`src/mbtiles/__init__.py` line 122: a single slot, initially `None`). -/
structure PyState where
  dicts : List Dict
  emptyTile : Option Blob
deriving DecidableEq, Repr

/-- Dereference a dict address. -/
def readDict (s : PyState) (a : Nat) : Dict :=
  s.dicts.getD a []

/-- Overwrite the dict at an address. -/
def writeDict (s : PyState) (a : Nat) (d : Dict) : PyState :=
  { s with dicts := s.dicts.set a d }

/-- Allocate a fresh dict, returning the new state and its address. -/
def allocDict (s : PyState) (d : Dict) : PyState × Nat :=
  ({ s with dicts := s.dicts ++ [d] }, s.dicts.length)

/-- What one call of `reproject_tile` produced: the returned
`Optional[bytes]` value, and whether the external resampling engine
(`rasterio.warp.reproject`) was invoked. -/
structure TileOut where
  value : Option Blob
  engineCalled : Bool
deriving DecidableEq, Repr

/-- `reproject_tile(src, tile, reproject_args, resampling_method)` from
`src/mbtiles/__init__.py` lines 139-225.  `argsAddr` is the heap address of
the caller's `reproject_args` dict.  Steps, in source order: copy the args
into a fresh dict `dst_profile`; pop `src_nodata` and `dst_nodata` from the
copy; store the tile transform in the copy; if `src_has_data` is false,
return the global `EMPTY_TILE`, first constructing and caching it via
`empty_tile(dst_profile)` when the slot is still `None`; otherwise open a
`MemoryFile` with the copy and invoke the resampling engine, returning the
encoded bytes. -/
def reproject_tile (src : SrcDataset) (tile : Tile) (argsAddr : Nat)
    (resampling_method : String) (s0 : PyState) : TileOut × PyState :=
  let alloc := allocDict s0 (readDict s0 argsAddr)
  let s1 := alloc.1
  let dstAddr := alloc.2
  let pop1 := dpop (readDict s1 dstAddr) "src_nodata"
  let src_nodata := pop1.1
  let s2 := writeDict s1 dstAddr pop1.2
  let pop2 := dpop (readDict s2 dstAddr) "dst_nodata"
  let dst_nodata := pop2.1
  let s3 := writeDict s2 dstAddr pop2.2
  let s4 := writeDict s3 dstAddr
    (dset (readDict s3 dstAddr) "transform" (PVal.affine tile))
  if src_has_data src then
    (⟨some (Blob.warped src tile (readDict s4 dstAddr) src_nodata dst_nodata
        resampling_method), true⟩, s4)
  else
    match s4.emptyTile with
    | none =>
        let et := empty_tile (readDict s4 dstAddr)
        let s5 := writeDict s4 dstAddr et.2
        (⟨some et.1, false⟩, { s5 with emptyTile := some et.1 })
    | some b => (⟨some b, false⟩, s4)

/-- The MBTiles row flip applied at write time, `cli.py` line 258:
`mbtile_y = int(math.pow(2, tile.z)) - tile.y - 1`. -/
def mbtile_row (z y : Nat) : Int :=
  2 ^ z - (y : Int) - 1

/-- One row of the `tiles` table:
`(zoom_level, tile_column, tile_row, tile_data)`. -/
structure MBRow where
  z : Nat
  x : Nat
  row : Int
  data : Blob
deriving DecidableEq, Repr

/-- A tiles-table coordinate `(zoom_level, tile_column, tile_row)`. -/
structure RowKey where
  z : Nat
  x : Nat
  row : Int
deriving DecidableEq, Repr

/-- The coordinate key of a tiles-table row. -/
def MBRow.key (r : MBRow) : RowKey :=
  ⟨r.z, r.x, r.row⟩

/-- The tiles-table coordinate a tile is written under. -/
def Tile.key (t : Tile) : RowKey :=
  ⟨t.z, t.x, mbtile_row t.z t.y⟩

/-- The outcome of the tile loop: the rows inserted into `tiles` in order,
the number of times the `tile_data is None` branch of the caller ran, and
the final interpreter state. -/
structure LoopOut where
  rows : List MBRow
  noneCount : Nat
  state : PyState
deriving Repr

/-- The tile loop of the `mbtiles` command, `cli.py` lines 256-291.
`has_data` is `src_has_data(src)` computed once before the loop (line 254).
Per tile: compute the flipped row; if the whole source is empty insert a
zero-length blob and continue; otherwise call `reproject_tile` with the
shared `base_kwds` dict at `argsAddr`; if it returned `None` insert a
zero-length blob, else insert the returned bytes. -/
def tile_loop (src : SrcDataset) (has_data : Bool) (argsAddr : Nat)
    (resampling : String) : List Tile → PyState → LoopOut
  | [], s => ⟨[], 0, s⟩
  | tile :: rest, s =>
      let mbtile_y := mbtile_row tile.z tile.y
      if has_data then
        let call := reproject_tile src tile argsAddr resampling s
        match call.1.value with
        | none =>
            let out := tile_loop src has_data argsAddr resampling rest call.2
            ⟨⟨tile.z, tile.x, mbtile_y, Blob.raw []⟩ :: out.rows,
              out.noneCount + 1, out.state⟩
        | some tile_data =>
            let out := tile_loop src has_data argsAddr resampling rest call.2
            ⟨⟨tile.z, tile.x, mbtile_y, tile_data⟩ :: out.rows,
              out.noneCount, out.state⟩
      else
        let out := tile_loop src has_data argsAddr resampling rest s
        ⟨⟨tile.z, tile.x, mbtile_y, Blob.raw []⟩ :: out.rows,
          out.noneCount, out.state⟩

/-- `get_src_zooms(west, south, east, north)` from `src/mbtiles/__init__.py`
lines 91-96: the zoom at which the bounds fit one tile in each axis,
`zw = round(log2(360 / (east - west)))` and
`zh = round(log2(170.1022 / (north - south)))`, returned as
`(min zw zh, max zw zh)`.  Python floats are idealised as reals. -/
noncomputable def get_src_zooms (west south east north : ℝ) : ℤ × ℤ :=
  let zw := round (Real.logb 2 (360.0 / (east - west)))
  let zh := round (Real.logb 2 (170.1022 / (north - south)))
  (min zw zh, max zw zh)

/-- The width-axis zoom estimate exactly as the spec words it:
`round(log2(360 / (east - west)))`. -/
noncomputable def zoom_axis_w (west east : ℝ) : ℤ :=
  round (Real.logb 2 (360.0 / (east - west)))

/-- The height-axis zoom estimate exactly as the spec words it:
`round(log2(170.1022 / (north - south)))`. -/
noncomputable def zoom_axis_h (south north : ℝ) : ℤ :=
  round (Real.logb 2 (170.1022 / (north - south)))

/-- The error taxonomy entry for degenerate bounds. -/
inductive ZoomError where
  | invalidExtent : ZoomError
deriving DecidableEq, Repr

/-- `get_src_zooms` with its failure behaviour made explicit: Python's
`math.log(x, 2.0)` raises for a non-positive argument (and `360.0 / 0.0`
raises before it); both abort zoom inference, which the design maps to
`invalidExtent`.  The guard is exactly the domain of the two logarithms in
lines 92-93 (in the real-number idealisation `x / 0 = 0`, which the guard
also rejects, matching Python's `ZeroDivisionError`). -/
noncomputable def get_src_zooms_checked (west south east north : ℝ) :
    Except ZoomError (ℤ × ℤ) :=
  if 360.0 / (east - west) ≤ 0 ∨ 170.1022 / (north - south) ≤ 0 then
    Except.error ZoomError.invalidExtent
  else
    Except.ok (get_src_zooms west south east north)

/-- Observable side effects of the `mbtiles` command, in program order. -/
inductive Effect where
  | resolvePaths : Effect
  | openInput : Effect
  | unlinkOutput : Effect
  | createOutputDb : Effect
  | insertMetadata : Effect
  | insertTileRow : MBRow → Effect
deriving DecidableEq, Repr

/-- A fatal CLI error (`click.BadParameter`), which the design's taxonomy
calls `InvalidConfiguration`. -/
inductive CliError where
  | badParameter : String → CliError
deriving DecidableEq, Repr

/-- The configuration of one `mbtiles` invocation (the options the modelled
fragment reads). -/
structure CliConfig where
  rgba : Bool
  img_format : String
  tile_size : Int
  src_nodata : Option Int
  dst_nodata : Option Int
deriving DecidableEq, Repr

/-- A Python optional-float option as a dict value. -/
def pvalOfNodata : Option Int → PVal
  | none => PVal.noneV
  | some v => PVal.num v

/-- `count = 4 if rgba else 3`, `cli.py` lines 160-166. -/
def cli_count (cfg : CliConfig) : Int :=
  if cfg.rgba then 4 else 3

/-- The `base_kwds` dict built in `cli.py` lines 176-194: nodata overrides
first, then driver, dtype, `nodata = 0`, tile height/width, band count and
target CRS. -/
def base_kwds (cfg : CliConfig) : Dict :=
  let b0 : Dict := [("dst_nodata", pvalOfNodata cfg.dst_nodata),
                    ("src_nodata", pvalOfNodata cfg.src_nodata)]
  let b1 := if cfg.src_nodata.isSome then
      dset b0 "nodata" (pvalOfNodata cfg.src_nodata) else b0
  let b2 := if cfg.dst_nodata.isSome then
      dset b1 "nodata" (pvalOfNodata cfg.dst_nodata) else b1
  let b3 := dset b2 "driver" (PVal.str cfg.img_format)
  let b4 := dset b3 "dtype" (PVal.str "uint8")
  let b5 := dset b4 "nodata" (PVal.num 0)
  let b6 := dset b5 "height" (PVal.num cfg.tile_size)
  let b7 := dset b6 "width" (PVal.num cfg.tile_size)
  let b8 := dset b7 "count" (PVal.num (cli_count cfg))
  dset b8 "crs" (PVal.str "EPSG:3857")

/-- The outcome of one `mbtiles` run: the effect trace, the fatal error if
one was raised, the tiles-table rows, and the final interpreter state. -/
structure RunOut where
  effects : List Effect
  error : Option CliError
  rows : List MBRow
  state : PyState
deriving Repr

/-- The `mbtiles` command body, `cli.py` lines 150-293, over an already
parsed configuration.  In source order: resolve input/output paths; if RGBA
is requested with JPEG, raise `BadParameter` (lines 160-162) — before the
output file is unlinked (lines 209-210) or the database created (line 216);
open the input; `validate_nodata` (lines 28-33, called at line 175); build
`base_kwds`; unlink any existing output, create the database and insert the
metadata rows; compute `has_data = src_has_data(src)` once; run the tile
loop over the enumerated tiles. -/
def mbtiles_cmd (cfg : CliConfig) (meta_nodata : Option Int)
    (src : SrcDataset) (tiles : List Tile) (resampling : String) : RunOut :=
  let eff0 := [Effect.resolvePaths]
  if cfg.rgba && (cfg.img_format == "JPEG") then
    ⟨eff0,
      some (CliError.badParameter "RGBA output is not possible with JPEG format."),
      [], ⟨[], none⟩⟩
  else
    let eff1 := eff0 ++ [Effect.openInput]
    if cfg.dst_nodata.isSome && cfg.src_nodata.isNone && meta_nodata.isNone then
      ⟨eff1,
        some (CliError.badParameter
          "--src-nodata must be provided because dst-nodata is not None."),
        [], ⟨[], none⟩⟩
    else
      let eff2 := eff1 ++
        [Effect.unlinkOutput, Effect.createOutputDb, Effect.insertMetadata]
      let s0 : PyState := ⟨[base_kwds cfg], none⟩
      let has_data := src_has_data src
      let out := tile_loop src has_data 0 resampling tiles s0
      ⟨eff2 ++ out.rows.map Effect.insertTileRow, none, out.rows, out.state⟩

/-- Whether a blob is decodable as a band-count-3 image all of whose samples
equal 0 (the scenario's "3-band image whose every sample equals the declared
nodata value 0").  Only an encoded image decodes; a raw byte string such as
the zero-length `bytearray()` blob does not. -/
def decodes_all_nodata_rgb (b : Blob) : Bool :=
  match b with
  | Blob.image p bands =>
      dnum p "count" 0 == 3 && bands.length == 3 &&
        bands.all (fun band => band.all (fun v => v == 0))
  | _ => false

/-- Whether a blob is the zero-length byte string (an encoded PNG or JPEG
image is never empty). -/
def zero_length (b : Blob) : Bool :=
  match b with
  | Blob.raw l => l.isEmpty
  | _ => false

/-- The value of the local `dst_profile` dict of `reproject_tile` at the
point where the empty-tile branch runs: the caller's args with `src_nodata`
and `dst_nodata` popped and the tile transform stored. -/
def dst_profile_of (args : Dict) (tile : Tile) : Dict :=
  dset (dpop (dpop args "src_nodata").2 "dst_nodata").2 "transform"
    (PVal.affine tile)

/-- Every inserted row holds a zero-length blob. -/
def rows_all_zero_length (rows : List MBRow) : Bool :=
  rows.all (fun r => zero_length r.data)

/-- Every inserted row decodes as an all-nodata 3-band image. -/
def rows_all_decode_rgb (rows : List MBRow) : Bool :=
  rows.all (fun r => decodes_all_nodata_rgb r.data)

/-! Concrete fixtures used by witnesses and counterexamples. -/

/-- The tile of the spec's zoom-7 scenario. -/
def fixtureTile : Tile := ⟨36, 73, 7⟩

/-- A 3-band source with every sample zero and no nodata set: a fully empty
source (`src_has_data` is false). -/
def srcEmptyFx : SrcDataset := ⟨3, none, [[0, 0], [0, 0], [0, 0]]⟩

/-- A 3-band source with one nonzero sample (`src_has_data` is true). -/
def srcDataFx : SrcDataset := ⟨3, none, [[0, 1], [0, 0], [0, 0]]⟩

/-- An RGB/PNG output profile with 1-pixel tiles. -/
def profileFx1 : Dict := base_kwds ⟨false, "PNG", 1, none, none⟩

/-- An RGB/PNG output profile with 2-pixel tiles: distinct from
`profileFx1`. -/
def profileFx2 : Dict := base_kwds ⟨false, "PNG", 2, none, none⟩

/-- First call of the empty-tile logic: empty source, `profileFx1`, global
`EMPTY_TILE` slot still `None`. -/
def emptyCall1 : TileOut × PyState :=
  reproject_tile srcEmptyFx fixtureTile 0 "nearest" ⟨[profileFx1], none⟩

/-- Second call of the empty-tile logic with a distinct profile, the global
slot carried over from the first call. -/
def emptyCall2 : TileOut × PyState :=
  reproject_tile srcEmptyFx fixtureTile 0 "nearest"
    ⟨[profileFx2], (emptyCall1.2).emptyTile⟩

/-- What a first call with `profileFx2` would have produced. -/
def emptyCall2Fresh : TileOut × PyState :=
  reproject_tile srcEmptyFx fixtureTile 0 "nearest" ⟨[profileFx2], none⟩

/-- The export run of the fully-empty-source scenario: RGB output, tile
size 256, two enumerated tiles. -/
def runEmptyExport : RunOut :=
  mbtiles_cmd ⟨false, "PNG", 256, none, none⟩ none srcEmptyFx
    [⟨36, 73, 7⟩, ⟨0, 0, 0⟩] "nearest"

/-- The tile list of the fixtures: two distinct tiles. -/
def tilesFx : List Tile := [⟨36, 73, 7⟩, ⟨0, 0, 0⟩]

/-! Heap lemmas. -/

theorem readDict_writeDict_ne (s : PyState) (a b : Nat) (d : Dict)
    (h : a ≠ b) : readDict (writeDict s b d) a = readDict s a := by
  simp [readDict, writeDict, List.getD_eq_getElem?_getD,
    List.getElem?_set_ne (Ne.symm h)]

theorem readDict_writeDict_self (s : PyState) (b : Nat) (d : Dict)
    (h : b < s.dicts.length) : readDict (writeDict s b d) b = d := by
  simp [readDict, writeDict, List.getD_eq_getElem?_getD, List.getElem?_set, h]

theorem readDict_alloc_old (s : PyState) (d : Dict) (a : Nat)
    (h : a < s.dicts.length) : readDict (allocDict s d).1 a = readDict s a := by
  simp [readDict, allocDict, List.getD_eq_getElem?_getD,
    List.getElem?_append_left h]

theorem readDict_alloc_new (s : PyState) (d : Dict) :
    readDict (allocDict s d).1 s.dicts.length = d := by
  simp [readDict, allocDict, List.getD_eq_getElem?_getD,
    List.getElem?_concat_length]

theorem writeDict_dicts_length (s : PyState) (b : Nat) (d : Dict) :
    (writeDict s b d).dicts.length = s.dicts.length := by
  simp [writeDict]

theorem writeDict_emptyTile (s : PyState) (b : Nat) (d : Dict) :
    (writeDict s b d).emptyTile = s.emptyTile := rfl

theorem allocDict_emptyTile (s : PyState) (d : Dict) :
    ((allocDict s d).1).emptyTile = s.emptyTile := rfl

theorem allocDict_dicts_length (s : PyState) (d : Dict) :
    ((allocDict s d).1).dicts.length = s.dicts.length + 1 := by
  simp [allocDict]

theorem allocDict_addr (s : PyState) (d : Dict) :
    (allocDict s d).2 = s.dicts.length := rfl

theorem readDict_set_emptyTile (s : PyState) (e : Option Blob) (a : Nat) :
    readDict { s with emptyTile := e } a = readDict s a := rfl

/-! Behaviour of `reproject_tile`, by branch. -/

theorem reproject_tile_engine_true (src : SrcDataset) (tile : Tile) (a : Nat)
    (m : String) (s : PyState) (h : src_has_data src = true) :
    (reproject_tile src tile a m s).1.engineCalled = true := by
  simp [reproject_tile, h]

theorem reproject_tile_no_data (src : SrcDataset) (tile : Tile) (a : Nat)
    (m : String) (s : PyState) (h : src_has_data src = false) :
    (reproject_tile src tile a m s).1.engineCalled = false ∧
    ((reproject_tile src tile a m s).2).emptyTile =
      (reproject_tile src tile a m s).1.value := by
  cases hc : s.emptyTile with
  | none => simp [reproject_tile, h, writeDict, allocDict, hc]
  | some b => simp [reproject_tile, h, writeDict, allocDict, hc]

theorem reproject_tile_value_isSome (src : SrcDataset) (tile : Tile) (a : Nat)
    (m : String) (s : PyState) :
    ((reproject_tile src tile a m s).1.value).isSome = true := by
  cases h : src_has_data src with
  | true => simp [reproject_tile, h]
  | false =>
      cases hc : s.emptyTile with
      | none => simp [reproject_tile, h, writeDict, allocDict, hc]
      | some b => simp [reproject_tile, h, writeDict, allocDict, hc]

theorem reproject_tile_cache_hit (src : SrcDataset) (tile : Tile) (a : Nat)
    (m : String) (s : PyState) (b : Blob) (h : src_has_data src = false)
    (hc : s.emptyTile = some b) :
    (reproject_tile src tile a m s).1.value = some b ∧
    ((reproject_tile src tile a m s).2).emptyTile = some b := by
  simp [reproject_tile, h, writeDict, allocDict, hc]

theorem reproject_tile_cache_first (src : SrcDataset) (tile : Tile) (a : Nat)
    (m : String) (s : PyState) (h : src_has_data src = false)
    (hc : s.emptyTile = none) :
    (reproject_tile src tile a m s).1.value =
      some (empty_tile (dst_profile_of (readDict s a) tile)).1 ∧
    ((reproject_tile src tile a m s).2).emptyTile =
      some (empty_tile (dst_profile_of (readDict s a) tile)).1 := by
  simp only [reproject_tile, h, allocDict_emptyTile, writeDict_emptyTile, hc]
  simp only [allocDict_addr, readDict_alloc_new, readDict_writeDict_self,
    writeDict_dicts_length, allocDict_dicts_length, Nat.lt_succ_self,
    dst_profile_of]
  simp

/-! Lemmas about the CLI tile loop. -/

theorem tile_loop_keys (src : SrcDataset) (hd : Bool) (a : Nat) (r : String) :
    ∀ (tiles : List Tile) (s : PyState),
      ((tile_loop src hd a r tiles s).rows).map MBRow.key = tiles.map Tile.key
  | [], _ => rfl
  | t :: rest, s => by
      cases hd with
      | false =>
          simp [tile_loop, tile_loop_keys src false a r rest, MBRow.key, Tile.key]
      | true =>
          cases hv : (reproject_tile src t a r s).1.value with
          | none =>
              simp [tile_loop, hv, tile_loop_keys src true a r rest,
                MBRow.key, Tile.key]
          | some d =>
              simp [tile_loop, hv, tile_loop_keys src true a r rest,
                MBRow.key, Tile.key]

theorem tile_loop_noneCount (src : SrcDataset) (hd : Bool) (a : Nat) (r : String) :
    ∀ (tiles : List Tile) (s : PyState),
      (tile_loop src hd a r tiles s).noneCount = 0
  | [], _ => rfl
  | t :: rest, s => by
      cases hd with
      | false => simp [tile_loop, tile_loop_noneCount src false a r rest]
      | true =>
          cases hv : (reproject_tile src t a r s).1.value with
          | none =>
              have hs := reproject_tile_value_isSome src t a r s
              rw [hv] at hs
              simp at hs
          | some d =>
              simp [tile_loop, hv, tile_loop_noneCount src true a r rest]

theorem tile_loop_false_state (src : SrcDataset) (a : Nat) (r : String) :
    ∀ (tiles : List Tile) (s : PyState),
      (tile_loop src false a r tiles s).state = s
  | [], _ => rfl
  | t :: rest, s => by
      simp [tile_loop, tile_loop_false_state src a r rest]

theorem tile_loop_false_zero (src : SrcDataset) (a : Nat) (r : String) :
    ∀ (tiles : List Tile) (s : PyState),
      rows_all_zero_length ((tile_loop src false a r tiles s).rows) = true
  | [], _ => rfl
  | t :: rest, s => by
      have ih := tile_loop_false_zero src a r rest s
      simp [tile_loop, rows_all_zero_length, zero_length] at ih ⊢
      exact ih

theorem Tile_key_injective : Function.Injective Tile.key := by
  intro t1 t2 h
  simp [Tile.key, RowKey.mk.injEq, mbtile_row] at h
  obtain ⟨hz, hx, hrow⟩ := h
  cases t1
  cases t2
  simp_all

theorem mbtile_row_bounds (z y : Nat) (hy : y < 2 ^ z) :
    0 ≤ mbtile_row z y ∧ mbtile_row z y < 2 ^ z := by
  have h : (y : Int) < 2 ^ z := by exact_mod_cast hy
  unfold mbtile_row
  omega

/-! The claims. -/

/-- Claim C1: every tile coordinate emitted by the enumerator is inserted
into the `tiles` table under the flipped row `2 ^ z - y - 1`; for
`0 ≤ y < 2 ^ z` the flipped row itself lies in `[0, 2 ^ z)`; and the tile
`(36, 73, 7)` is written with row `2 ^ 7 - 73 - 1 = 54`. -/
theorem claim_C1_row_flip :
    (∀ (src : SrcDataset) (hd : Bool) (a : Nat) (r : String)
        (tiles : List Tile) (s : PyState),
      ((tile_loop src hd a r tiles s).rows).map MBRow.key = tiles.map Tile.key) ∧
    (∀ z y : Nat, y < 2 ^ z → 0 ≤ mbtile_row z y ∧ mbtile_row z y < 2 ^ z) ∧
    mbtile_row 7 73 = 54 :=
  ⟨tile_loop_keys, mbtile_row_bounds, by decide⟩

/-- Witness for C1 at the concrete tile `(36, 73, 7)`. -/
theorem claim_C1_row_flip_witness :
    0 ≤ mbtile_row 7 73 ∧ mbtile_row 7 73 < 2 ^ 7 :=
  claim_C1_row_flip.2.1 7 73 (by decide)

/-- Claim C7: after the tile loop finishes, every enumerated tile
coordinate has exactly one row in the `tiles` table (no duplicate, no
missing coordinate, no extra rows), and when the source is empty (the
`EMPTY` results) the stored blob is zero-length. -/
theorem claim_C7_exactly_one_row :
    ∀ (src : SrcDataset) (hd : Bool) (a : Nat) (r : String)
      (tiles : List Tile) (s : PyState),
      tiles.Nodup →
      (∀ t ∈ tiles,
        (((tile_loop src hd a r tiles s).rows).map MBRow.key).count t.key = 1) ∧
      ((tile_loop src hd a r tiles s).rows).length = tiles.length ∧
      (hd = false →
        ∀ row ∈ (tile_loop src hd a r tiles s).rows, row.data = Blob.raw []) := by
  intro src hd a r tiles s hnd
  refine ⟨?_, ?_, ?_⟩
  · intro t ht
    rw [tile_loop_keys]
    exact List.count_eq_one_of_mem (hnd.map Tile_key_injective)
      (List.mem_map_of_mem _ ht)
  · have h := congrArg List.length (tile_loop_keys src hd a r tiles s)
    simpa using h
  · rintro rfl row hrow
    have hz := tile_loop_false_zero src a r tiles s
    rw [rows_all_zero_length, List.all_eq_true] at hz
    have hzr := hz row hrow
    cases hb : row.data with
    | raw l =>
        rw [hb] at hzr
        simp [zero_length] at hzr
        rw [hzr]
    | image p bands => rw [hb] at hzr; simp [zero_length] at hzr
    | warped s2 t2 p2 a2 b2 m2 => rw [hb] at hzr; simp [zero_length] at hzr

/-- Witness for C7 on the two-tile fixture list. -/
theorem claim_C7_exactly_one_row_witness :
    (((tile_loop srcEmptyFx false 0 "nearest" tilesFx
        ⟨[profileFx1], none⟩).rows).map MBRow.key).count fixtureTile.key = 1 ∧
    ((tile_loop srcEmptyFx false 0 "nearest" tilesFx
        ⟨[profileFx1], none⟩).rows).length = tilesFx.length :=
  ⟨(claim_C7_exactly_one_row srcEmptyFx false 0 "nearest" tilesFx
      ⟨[profileFx1], none⟩ (by decide)).1 fixtureTile (by decide),
   (claim_C7_exactly_one_row srcEmptyFx false 0 "nearest" tilesFx
      ⟨[profileFx1], none⟩ (by decide)).2.1⟩

/-- Claim C3: `reproject_tile` short-circuits exactly on the whole-dataset
emptiness check: when the source has no data anywhere the resampling engine
is not invoked and the (cached) empty tile is returned — the global slot
afterwards holds precisely the returned bytes; when the source has any data
anywhere the engine is invoked for every tile, including tiles whose
footprint lies outside the source extent (the statement quantifies over all
tiles). -/
theorem claim_C3_whole_source_check :
    ∀ (src : SrcDataset) (tile : Tile) (a : Nat) (m : String) (s : PyState),
      (src_has_data src = false →
        (reproject_tile src tile a m s).1.engineCalled = false ∧
        ((reproject_tile src tile a m s).2).emptyTile =
          (reproject_tile src tile a m s).1.value ∧
        ((reproject_tile src tile a m s).1.value).isSome = true) ∧
      (src_has_data src = true →
        (reproject_tile src tile a m s).1.engineCalled = true) :=
  fun src tile a m s =>
    ⟨fun h => ⟨(reproject_tile_no_data src tile a m s h).1,
      (reproject_tile_no_data src tile a m s h).2,
      reproject_tile_value_isSome src tile a m s⟩,
     fun h => reproject_tile_engine_true src tile a m s h⟩

/-- Witness for C3: an all-zero source short-circuits, a source with one
nonzero sample reaches the engine. -/
theorem claim_C3_whole_source_check_witness :
    ((reproject_tile srcEmptyFx fixtureTile 0 "nearest"
        ⟨[profileFx1], none⟩).1.engineCalled = false ∧
      ((reproject_tile srcEmptyFx fixtureTile 0 "nearest"
        ⟨[profileFx1], none⟩).2).emptyTile =
        (reproject_tile srcEmptyFx fixtureTile 0 "nearest"
          ⟨[profileFx1], none⟩).1.value ∧
      ((reproject_tile srcEmptyFx fixtureTile 0 "nearest"
        ⟨[profileFx1], none⟩).1.value).isSome = true) ∧
    (reproject_tile srcDataFx fixtureTile 0 "nearest"
      ⟨[profileFx1], none⟩).1.engineCalled = true :=
  ⟨(claim_C3_whole_source_check srcEmptyFx fixtureTile 0 "nearest"
      ⟨[profileFx1], none⟩).1 (by decide),
   (claim_C3_whole_source_check srcDataFx fixtureTile 0 "nearest"
      ⟨[profileFx1], none⟩).2 (by decide)⟩

/-- Claim C10: `reproject_tile` never returns `None` despite its
`Optional[bytes]` signature, and consequently the caller's
`tile_data is None` branch in the CLI loop never runs. -/
theorem claim_C10_reproject_never_none :
    (∀ (src : SrcDataset) (tile : Tile) (a : Nat) (m : String) (s : PyState),
      ((reproject_tile src tile a m s).1.value).isSome = true) ∧
    (∀ (src : SrcDataset) (hd : Bool) (a : Nat) (r : String)
        (tiles : List Tile) (s : PyState),
      (tile_loop src hd a r tiles s).noneCount = 0) :=
  ⟨reproject_tile_value_isSome, tile_loop_noneCount⟩

/-- Claim C9: `reproject_tile` does not mutate the caller's
`reproject_args` dict: it works on a copy, and for any valid address the
dict stored there is unchanged by the call. -/
theorem claim_C9_args_not_mutated :
    ∀ (src : SrcDataset) (tile : Tile) (a : Nat) (m : String) (s : PyState),
      a < s.dicts.length →
      readDict ((reproject_tile src tile a m s).2) a = readDict s a := by
  intro src tile a m s ha
  have hne : a ≠ s.dicts.length := Nat.ne_of_lt ha
  cases h : src_has_data src with
  | true =>
      simp [reproject_tile, h, allocDict_addr,
        readDict_writeDict_ne _ _ _ _ hne, readDict_alloc_old s _ a ha]
  | false =>
      cases hc : s.emptyTile with
      | none =>
          simp [reproject_tile, h, allocDict_emptyTile, writeDict_emptyTile,
            hc, allocDict_addr, readDict_set_emptyTile,
            readDict_writeDict_ne _ _ _ _ hne, readDict_alloc_old s _ a ha]
      | some b =>
          simp [reproject_tile, h, allocDict_emptyTile, writeDict_emptyTile,
            hc, allocDict_addr, readDict_writeDict_ne _ _ _ _ hne,
            readDict_alloc_old s _ a ha]

/-- Witness for C9 at a concrete one-dict heap. -/
theorem claim_C9_args_not_mutated_witness :
    readDict ((reproject_tile srcDataFx fixtureTile 0 "nearest"
      ⟨[profileFx1], none⟩).2) 0 = readDict ⟨[profileFx1], none⟩ 0 :=
  claim_C9_args_not_mutated srcDataFx fixtureTile 0 "nearest"
    ⟨[profileFx1], none⟩ (by decide)

/-- Counterexample to claim C2 as stated: the empty-tile cache is a single
process-global slot, not keyed by profile.  After a first call caches the
encoding of `profileFx1`, a second call with the distinct profile
`profileFx2` returns the very bytes cached for `profileFx1` — not the
distinct encoding a fresh `profileFx2` call would have produced. -/
theorem claim_C2_counterexample :
    profileFx1 ≠ profileFx2 ∧
    emptyCall2.1.value = emptyCall1.1.value ∧
    emptyCall2.1.value ≠ emptyCall2Fresh.1.value := by
  decide

/-- Claim C2 as amended: the cache is one process-global slot.  The first
call synthesizes and encodes the zero-filled image from the profile passed
to that call (dimensions, band count and datatype of that profile) and
caches the bytes; every subsequent call returns the cached bytes without
re-encoding, regardless of the profile it is given. -/
theorem claim_C2_single_slot_cache :
    ∀ (src : SrcDataset) (tile : Tile) (a : Nat) (m : String) (s : PyState)
      (b : Blob),
      src_has_data src = false →
      (s.emptyTile = none →
        (reproject_tile src tile a m s).1.value =
          some (empty_tile (dst_profile_of (readDict s a) tile)).1 ∧
        ((reproject_tile src tile a m s).2).emptyTile =
          some (empty_tile (dst_profile_of (readDict s a) tile)).1) ∧
      (s.emptyTile = some b →
        (reproject_tile src tile a m s).1.value = some b ∧
        ((reproject_tile src tile a m s).2).emptyTile = some b) :=
  fun src tile a m s b h =>
    ⟨fun hc => reproject_tile_cache_first src tile a m s h hc,
     fun hc => reproject_tile_cache_hit src tile a m s b h hc⟩

/-- Witness for the amended C2: first call with an empty slot caches and
returns the encoding of the profile it was given. -/
theorem claim_C2_single_slot_cache_witness :
    (reproject_tile srcEmptyFx fixtureTile 0 "nearest"
        ⟨[profileFx1], none⟩).1.value =
      some (empty_tile
        (dst_profile_of (readDict ⟨[profileFx1], none⟩ 0) fixtureTile)).1 ∧
    ((reproject_tile srcEmptyFx fixtureTile 0 "nearest"
        ⟨[profileFx1], none⟩).2).emptyTile =
      some (empty_tile
        (dst_profile_of (readDict ⟨[profileFx1], none⟩ 0) fixtureTile)).1 :=
  (claim_C2_single_slot_cache srcEmptyFx fixtureTile 0 "nearest"
    ⟨[profileFx1], none⟩ (Blob.raw []) (by decide)).1 rfl

/-- Counterexample to claim C6 as stated: in the export of a fully empty
3-band source with tile size 256, every inserted blob is the zero-length
`bytearray()` — not bytes decodable as a 3-band all-nodata image — and the
empty-tile cache constructs no encoding at all (`EMPTY_TILE` stays `None`),
because the CLI loop short-circuits before ever calling `reproject_tile`. -/
theorem claim_C6_counterexample :
    runEmptyExport.rows.length = 2 ∧
    rows_all_decode_rgb runEmptyExport.rows = false ∧
    rows_all_zero_length runEmptyExport.rows = true ∧
    runEmptyExport.state.emptyTile = none := by
  decide

/-- Claim C6 as amended: for a fully empty source with 3-band RGB output
and tile size 256, the export inserts a zero-length blob for every
enumerated tile and the empty-tile cache constructs no encoding during the
run. -/
theorem claim_C6_empty_export_zero_blobs :
    ∀ (fmt : String) (meta : Option Int) (src : SrcDataset)
      (tiles : List Tile) (r : String),
      src_has_data src = false →
      rows_all_zero_length
        ((mbtiles_cmd ⟨false, fmt, 256, none, none⟩ meta src tiles r).rows) =
        true ∧
      ((mbtiles_cmd ⟨false, fmt, 256, none, none⟩ meta src
        tiles r).state).emptyTile = none := by
  intro fmt meta src tiles r h
  simp [mbtiles_cmd, h, tile_loop_false_zero, tile_loop_false_state]

/-- Witness for the amended C6 on the concrete empty-source fixture. -/
theorem claim_C6_empty_export_zero_blobs_witness :
    rows_all_zero_length
      ((mbtiles_cmd ⟨false, "PNG", 256, none, none⟩ none srcEmptyFx tilesFx
        "nearest").rows) = true ∧
    ((mbtiles_cmd ⟨false, "PNG", 256, none, none⟩ none srcEmptyFx tilesFx
      "nearest").state).emptyTile = none :=
  claim_C6_empty_export_zero_blobs "PNG" none srcEmptyFx tilesFx "nearest"
    (by decide)

/-- Claim C8: requesting RGBA output with the JPEG format fails with the
`BadParameter` configuration error before any tile is processed and before
the output file is unlinked or the database created — the effect trace
holds only the path resolution, so a pre-existing output file is left
unchanged. -/
theorem claim_C8_rgba_jpeg_fails_early :
    ∀ (cfg : CliConfig) (meta : Option Int) (src : SrcDataset)
      (tiles : List Tile) (r : String),
      cfg.rgba = true → cfg.img_format = "JPEG" →
      (mbtiles_cmd cfg meta src tiles r).error =
        some (CliError.badParameter
          "RGBA output is not possible with JPEG format.") ∧
      (mbtiles_cmd cfg meta src tiles r).effects = [Effect.resolvePaths] ∧
      (mbtiles_cmd cfg meta src tiles r).rows = [] := by
  intro cfg meta src tiles r h1 h2
  simp [mbtiles_cmd, h1, h2]

/-- Witness for C8 at a concrete RGBA/JPEG configuration. -/
theorem claim_C8_rgba_jpeg_fails_early_witness :
    (mbtiles_cmd ⟨true, "JPEG", 256, none, none⟩ none srcDataFx tilesFx
      "nearest").error =
      some (CliError.badParameter
        "RGBA output is not possible with JPEG format.") ∧
    (mbtiles_cmd ⟨true, "JPEG", 256, none, none⟩ none srcDataFx tilesFx
      "nearest").effects = [Effect.resolvePaths] ∧
    (mbtiles_cmd ⟨true, "JPEG", 256, none, none⟩ none srcDataFx tilesFx
      "nearest").rows = [] :=
  claim_C8_rgba_jpeg_fails_early ⟨true, "JPEG", 256, none, none⟩ none
    srcDataFx tilesFx "nearest" rfl rfl

/-- Claim C4: for bounds with `west < east`, `south < north` strictly
inside the Mercator limits, the inferred zoom range is
`(min zw zh, max zw zh)` for the two axis estimates
`zw = round(log2(360 / (east - west)))` and
`zh = round(log2(170.1022 / (north - south)))`, and its first component is
at most its second. -/
theorem claim_C4_zoom_range :
    ∀ w s e n : ℝ, w < e → s < n → -180 < w → e < 180 →
      -85.051129 < s → n < 85.051129 →
      get_src_zooms w s e n =
        (min (zoom_axis_w w e) (zoom_axis_h s n),
         max (zoom_axis_w w e) (zoom_axis_h s n)) ∧
      (get_src_zooms w s e n).1 ≤ (get_src_zooms w s e n).2 := by
  intro w s e n _ _ _ _ _ _
  exact ⟨rfl, min_le_max⟩

/-- Witness for C4 at the unit square bounds. -/
theorem claim_C4_zoom_range_witness :
    get_src_zooms 0 0 1 1 =
      (min (zoom_axis_w 0 1) (zoom_axis_h 0 1),
       max (zoom_axis_w 0 1) (zoom_axis_h 0 1)) ∧
    (get_src_zooms 0 0 1 1).1 ≤ (get_src_zooms 0 0 1 1).2 :=
  claim_C4_zoom_range 0 0 1 1 (by norm_num) (by norm_num) (by norm_num)
    (by norm_num) (by norm_num) (by norm_num)

/-- Claim C5: when `east - west` or `north - south` is nonpositive, zoom
inference fails with the invalid-extent error (in the real-number
idealisation every value is finite, so the non-finite clause of the claim
is vacuous). -/
theorem claim_C5_degenerate_bounds :
    ∀ w s e n : ℝ, e - w ≤ 0 ∨ n - s ≤ 0 →
      get_src_zooms_checked w s e n = Except.error ZoomError.invalidExtent := by
  intro w s e n h
  have hg : 360.0 / (e - w) ≤ 0 ∨ 170.1022 / (n - s) ≤ 0 := by
    rcases h with h | h
    · exact Or.inl (div_nonpos_iff.mpr (Or.inl ⟨by norm_num, h⟩))
    · exact Or.inr (div_nonpos_iff.mpr (Or.inl ⟨by norm_num, h⟩))
  simp only [get_src_zooms_checked, if_pos hg]

/-- Witness for C5 at degenerate bounds with zero width. -/
theorem claim_C5_degenerate_bounds_witness :
    get_src_zooms_checked 0 0 0 1 = Except.error ZoomError.invalidExtent :=
  claim_C5_degenerate_bounds 0 0 0 1 (Or.inl (by norm_num))
